import Mathlib

/-
Verification development for the two-model response comparison tool
(src/src/main.js and the helpers module).  The JavaScript core is shallowly
embedded: decoded JSON bodies become the inductive `Json`, the response
normalization inside `callModel` becomes `normalize`, the input validation of
`compareResponses` becomes `compareResponses`, the word-level diff
`highlightDifferences` becomes `highlightDifferences`, and the helpers'
`escapeHtml` becomes `escapeHtml`.
-/

namespace LlmDiff

/-- A decoded JSON value, the type of `data = await response.json()` in
`callModel`.  JSON numbers are modeled as integers: every numeric field the
program reads is a token count. -/
inductive Json where
  | null
  | bool (b : Bool)
  | num (n : Int)
  | str (s : String)
  | arr (elems : List Json)
  | obj (fields : List (String × Json))

/-- JavaScript truthiness of a value, as used by the `if` guards and `||`
defaults of `callModel`: `null`, `false`, `0` and `""` are falsy; every
array and object is truthy. -/
def truthy : Json → Bool
  | .null => false
  | .bool b => b
  | .num n => n != 0
  | .str s => s != ""
  | .arr _ => true
  | .obj _ => true

/-- Truthiness lifted to a possibly-undefined value (`none` models the
JavaScript `undefined` produced by a missing property). -/
def truthyO : Option Json → Bool
  | none => false
  | some v => truthy v

/-- Property access `v[k]` for the named properties `callModel` reads
(`choices`, `content`, `message`, `text`, `usage` and the usage counters):
a lookup in an object, `undefined` (`none`) on every other value. -/
def getField : Json → String → Option Json
  | .obj fields, k => fields.lookup k
  | _, _ => none

/-- The index access `v[0]` used by `data.choices[0]` and `data.content[0]`:
the first element of an array, the `"0"` property of an object, the first
character of a string (as a one-character string), `undefined` otherwise. -/
def index0 : Json → Option Json
  | .arr es => es.head?
  | .obj fields => fields.lookup "0"
  | .str s => s.toList.head?.map fun c => Json.str (String.mk [c])
  | _ => none

/-- The JavaScript default pattern `x || d`: the left value if truthy,
otherwise the default; a missing property (`none`) also yields the default. -/
def jsOr (v : Option Json) (d : Json) : Json :=
  match v with
  | some x => if truthy x then x else d
  | none => d

mutual

/-- JavaScript `ToString` on the values of our JSON universe: arrays join
their elements with `","` (null elements become the empty string), plain
objects print as `[object Object]`. -/
def jsToString : Json → String
  | .null => "null"
  | .bool true => "true"
  | .bool false => "false"
  | .num n => toString n
  | .str s => s
  | .arr es => String.intercalate "," (jsJoinElems es)
  | .obj _ => "[object Object]"

/-- Element strings for `Array.prototype.join`: a `null` element contributes
the empty string, every other element its `ToString`. -/
def jsJoinElems : List Json → List String
  | [] => []
  | .null :: rest => "" :: jsJoinElems rest
  | e :: rest => jsToString e :: jsJoinElems rest

end

/-- JavaScript `ToPrimitive` restricted to JSON values: arrays and objects
convert through their string form, primitives are unchanged. -/
def jsToPrim (v : Json) : Json :=
  match v with
  | .arr es => .str (jsToString (.arr es))
  | .obj fs => .str (jsToString (.obj fs))
  | x => x

/-- JavaScript `ToNumber` on the non-string primitives that can reach the
numeric branch of `+` (a string operand is dispatched to concatenation
before this conversion, so the string/array/object rows are unreachable
there). -/
def jsNumOf : Json → Int
  | .null => 0
  | .bool b => if b then 1 else 0
  | .num n => n
  | _ => 0

/-- The JavaScript binary `+` used at `totalTokens = promptTokens +
completionTokens`: after `ToPrimitive`, a string operand forces
concatenation, otherwise both operands are added as numbers. -/
def jsAdd (a b : Json) : Json :=
  match jsToPrim a, jsToPrim b with
  | .str s, q => .str (s ++ jsToString q)
  | p, .str s => .str (jsToString p ++ s)
  | p, q => .num (jsNumOf p + jsNumOf q)

/-- Failure modes of the response-parsing region of `callModel`:
`formatError` is the explicit `throw new Error('Unexpected response format')`,
`typeError` is the TypeError JavaScript raises when `data.choices` is read
from a `null` body. -/
inductive NormError where
  | formatError
  | typeError
  deriving DecidableEq

/-- The structured record `callModel` returns, without the `responseTime`
field that the caller attaches from wall-clock timestamps (real time, outside
this model).  `content` is an `Option Json` because `data.choices[0].message`
may lack a `content` property, in which case JavaScript stores `undefined`;
the token fields are always defined, thanks to the `|| 0` defaults. -/
structure ModelResponse where
  content : Option Json
  promptTokens : Json
  completionTokens : Json
  totalTokens : Json

/-- The guard `data.choices && data.choices[0] && data.choices[0].message`
selecting the OpenAI ("Shape A") branch. -/
def shapeAGuard (data : Json) : Bool :=
  truthyO (getField data "choices") &&
  truthyO (getField data "choices" >>= index0) &&
  truthyO (getField data "choices" >>= index0 >>= fun c0 => getField c0 "message")

/-- The guard `data.content && data.content[0] && data.content[0].text`
selecting the Anthropic ("Shape B") branch. -/
def shapeBGuard (data : Json) : Bool :=
  truthyO (getField data "content") &&
  truthyO (getField data "content" >>= index0) &&
  truthyO (getField data "content" >>= index0 >>= fun b0 => getField b0 "text")

/-- The value `data.choices[0].message.content` stored by the Shape A
branch (possibly `undefined`). -/
def aContent (data : Json) : Option Json :=
  getField data "choices" >>= index0 >>= (fun c0 => getField c0 "message") >>=
    fun m => getField m "content"

/-- The value `data.content[0].text` stored by the Shape B branch. -/
def bText (data : Json) : Option Json :=
  getField data "content" >>= index0 >>= fun b0 => getField b0 "text"

/-- The Shape A (OpenAI) branch of `callModel`: content from the first
choice's message; if `data.usage` is truthy, the three standard counters with
`|| 0` defaults, the supplied `total_tokens` taken verbatim. -/
def extractA (data : Json) : ModelResponse :=
  match getField data "usage" with
  | some u =>
    if truthy u then
      ⟨aContent data,
       jsOr (getField u "prompt_tokens") (.num 0),
       jsOr (getField u "completion_tokens") (.num 0),
       jsOr (getField u "total_tokens") (.num 0)⟩
    else ⟨aContent data, .num 0, .num 0, .num 0⟩
  | none => ⟨aContent data, .num 0, .num 0, .num 0⟩

/-- The Shape B (Anthropic) branch of `callModel`: content from the first
block's `text`; if `data.usage` is truthy, the two component counters with
`|| 0` defaults and `totalTokens = promptTokens + completionTokens` via the
JavaScript `+`. -/
def extractB (data : Json) : ModelResponse :=
  match getField data "usage" with
  | some u =>
    if truthy u then
      let p := jsOr (getField u "input_tokens") (.num 0)
      let c := jsOr (getField u "output_tokens") (.num 0)
      ⟨bText data, p, c, jsAdd p c⟩
    else ⟨bText data, .num 0, .num 0, .num 0⟩
  | none => ⟨bText data, .num 0, .num 0, .num 0⟩

/-- Whether the decoded body is the JSON value `null`, on which the very
first property read `data.choices` throws. -/
def isNull : Json → Bool
  | .null => true
  | _ => false

/-- The response-parsing region of `callModel` (main.js lines 92-116): on a
`null` body the read `data.choices` throws a TypeError; otherwise the Shape A
guard is tried first, then the Shape B guard, and if neither matches the
function throws `'Unexpected response format'`. -/
def normalize (data : Json) : Except NormError ModelResponse :=
  if isNull data then .error .typeError
  else if shapeAGuard data then .ok (extractA data)
  else if shapeBGuard data then .ok (extractB data)
  else .error .formatError

/-- The total directly supplied by the upstream usage object under the
Shape A reading, missing or falsy fields defaulting to 0 (spec section 4.2,
step 1: "read the three standard fields, defaulting missing ones to 0, and
use the supplied total verbatim"). -/
def suppliedTotal (data : Json) : Json :=
  match getField data "usage" with
  | some u => if truthy u then jsOr (getField u "total_tokens") (.num 0) else .num 0
  | none => .num 0

/-- The payload's usage object, when present, carries only non-negative
integer counters — the well-formedness hypothesis under which the token
fields of the normalized record are non-negative integers. -/
def usageOk (data : Json) : Prop :=
  ∀ u, getField data "usage" = some u →
    ∀ k v, getField u k = some v → ∃ n : Int, v = Json.num n ∧ 0 ≤ n

/-- The seven form values `compareResponses` reads before validating. -/
structure CompareInputs where
  endpoint1 : String
  endpoint2 : String
  apikey1 : String
  apikey2 : String
  model1 : String
  model2 : String
  prompt : String

/-- One outbound request as `callModel` would issue it: target endpoint,
bearer key, and the JSON body's model and prompt together with the fixed
`max_tokens: 1000` generation parameter (the fixed `temperature: 0.7` is a
float constant not read by any logic and is left out of the model). -/
structure RequestSpec where
  endpoint : String
  apiKey : String
  model : String
  prompt : String
  maxTokens : Nat

/-- What `compareResponses` does after reading the form: either it stops at
the validation alert (modeling the spec's ValidationError) before any fetch,
or it launches the two `callModel` requests in parallel. -/
inductive CompareOutcome where
  | validationError
  | launch (r1 r2 : RequestSpec)

/-- The input-validation stage of `compareResponses` (main.js lines 19-33):
`!s` on a string is true exactly for the empty string, so if any of the seven
fields is empty the function alerts and returns before any request;
otherwise both `callModel` invocations are started. -/
def compareResponses (i : CompareInputs) : CompareOutcome :=
  if i.endpoint1 == "" || i.endpoint2 == "" || i.apikey1 == "" || i.apikey2 == "" ||
     i.model1 == "" || i.model2 == "" || i.prompt == "" then
    .validationError
  else
    .launch ⟨i.endpoint1, i.apikey1, i.model1, i.prompt, 1000⟩
      ⟨i.endpoint2, i.apikey2, i.model2, i.prompt, 1000⟩

/-- How many network requests an outcome performs: none on the validation
path, the two parallel `fetch` calls otherwise. -/
def requestsIssued : CompareOutcome → Nat
  | .validationError => 0
  | .launch _ _ => 2

/-- The character class of the JavaScript regex `\s`, used by
`text.split(/(\s+)/)`. -/
def isJsSpace (c : Char) : Bool :=
  c == ' ' || c == '\t' || c == '\n' || c == '\u000B' || c == '\u000C' || c == '\r' ||
  c == '\u00A0' || c == '\u1680' || ('\u2000' ≤ c && c ≤ '\u200A') ||
  c == '\u2028' || c == '\u2029' || c == '\u202F' || c == '\u205F' ||
  c == '\u3000' || c == '\uFEFF'

mutual

/-- State of `split(/(\s+)/)` while accumulating a (possibly empty)
non-whitespace chunk `acc` (in reverse): a whitespace character closes the
chunk and starts a separator run. -/
def goWord : List Char → List Char → List String
  | [], acc => [String.mk acc.reverse]
  | c :: rest, acc =>
    if isJsSpace c then String.mk acc.reverse :: goSpace rest [c]
    else goWord rest (c :: acc)

/-- State of `split(/(\s+)/)` while accumulating a non-empty whitespace run
`acc` (in reverse); the run is kept as a token because the regex has a
capture group, and a run at the end of the input is followed by a final
empty chunk, as in JavaScript. -/
def goSpace : List Char → List Char → List String
  | [], acc => [String.mk acc.reverse, ""]
  | c :: rest, acc =>
    if isJsSpace c then goSpace rest (c :: acc)
    else String.mk acc.reverse :: goWord rest [c]

end

/-- `text.split(/(\s+)/)`: alternating (possibly empty) non-whitespace
chunks and captured whitespace runs, starting and ending with a chunk. -/
def splitWS (s : String) : List String :=
  goWord s.toList []

/-- Per-character escaping as performed by the `textContent`/`innerHTML`
round trip of `escapeHtml`: the text-node serialization of the DOM (the
standard escaping-a-string step, implemented by browsers and by the jsdom
environment running the helpers unit tests) replaces `&`, U+00A0 no-break
space, `<` and `>` with their entities and leaves every other character
unchanged. -/
def escapeChar (c : Char) : String :=
  if c == '&' then "&amp;"
  else if c == '\u00A0' then "&nbsp;"
  else if c == '<' then "&lt;"
  else if c == '>' then "&gt;"
  else String.mk [c]

/-- `escapeHtml` from utils/helpers.js: HTML-escape a string character by
character. -/
def escapeHtml (s : String) : String :=
  String.join (s.toList.map escapeChar)

/-- The characters of the opening tag `<span class="diff-removed">`. -/
def removedOpenL : List Char :=
  ['<', 's', 'p', 'a', 'n', ' ', 'c', 'l', 'a', 's', 's', '=', '\x22',
   'd', 'i', 'f', 'f', '-', 'r', 'e', 'm', 'o', 'v', 'e', 'd', '\x22', '>']

/-- The characters of the opening tag `<span class="diff-added">`. -/
def addedOpenL : List Char :=
  ['<', 's', 'p', 'a', 'n', ' ', 'c', 'l', 'a', 's', 's', '=', '\x22',
   'd', 'i', 'f', 'f', '-', 'a', 'd', 'd', 'e', 'd', '\x22', '>']

/-- The characters of the closing tag `</span>`. -/
def closeSpanL : List Char :=
  ['<', '/', 's', 'p', 'a', 'n', '>']

/-- The opening marker wrapped around a mismatched token on side 1. -/
def removedOpen : String := String.mk removedOpenL

/-- The opening marker wrapped around a mismatched token on side 2. -/
def addedOpen : String := String.mk addedOpenL

/-- The closing marker of both spans. -/
def closeSpan : String := String.mk closeSpanL

/-- One iteration of the comparison loop of `highlightDifferences` at tokens
`w1`, `w2` (already defaulted to `''` past the end of a side), prepended to
the output of the remaining iterations: on a mismatch each non-empty side is
wrapped in its marker, on a match the escaped token is appended bare. -/
def hlStep (w1 w2 : String) (rest : String × String) : String × String :=
  if w1 ≠ w2 then
    ((if w1 ≠ "" then removedOpen ++ escapeHtml w1 ++ closeSpan else "") ++ rest.1,
     (if w2 ≠ "" then addedOpen ++ escapeHtml w2 ++ closeSpan else "") ++ rest.2)
  else
    (escapeHtml w1 ++ rest.1, escapeHtml w2 ++ rest.2)

/-- The loop `for (let i = 0; i < maxLength; i++)` of `highlightDifferences`,
as simultaneous recursion on the two token lists; `words[i] || ''` past the
end of a side is the empty string (and an empty-string token is likewise
left as `''` by the `||`). -/
def hlLoop : List String → List String → String × String
  | [], [] => ("", "")
  | w1 :: r1, [] => hlStep w1 "" (hlLoop r1 [])
  | [], w2 :: r2 => hlStep "" w2 (hlLoop [] r2)
  | w1 :: r1, w2 :: r2 => hlStep w1 w2 (hlLoop r1 r2)

/-- `highlightDifferences(text1, text2)` from main.js: tokenize both texts
with `split(/(\s+)/)` and run the positional comparison loop. -/
def highlightDifferences (t1 t2 : String) : String × String :=
  hlLoop (splitWS t1) (splitWS t2)

/-- Whether `p` is an initial segment of `l`, character by character. -/
def startsWithL : List Char → List Char → Bool
  | [], _ => true
  | _ :: _, [] => false
  | p :: ps, c :: cs => p == c && startsWithL ps cs

/-- Remove every occurrence of the three diff markers from a character
stream, scanning left to right. -/
def stripMarkers : List Char → List Char
  | [] => []
  | c :: rest =>
    if startsWithL removedOpenL (c :: rest) then
      stripMarkers ((c :: rest).drop removedOpenL.length)
    else if startsWithL addedOpenL (c :: rest) then
      stripMarkers ((c :: rest).drop addedOpenL.length)
    else if startsWithL closeSpanL (c :: rest) then
      stripMarkers ((c :: rest).drop closeSpanL.length)
    else c :: stripMarkers rest
  termination_by l => l.length
  decreasing_by
    · simp [removedOpenL]; omega
    · simp [addedOpenL]; omega
    · simp [closeSpanL]; omega
    · simp

/-- Remove every diff-marker occurrence from a highlighter output string. -/
def stripTags (s : String) : String :=
  String.mk (stripMarkers s.toList)

/-- Character-level form of `escapeHtml`. -/
def escData (cs : List Char) : List Char :=
  (cs.map fun c => (escapeChar c).data).flatten

/-- Character contribution of each side-1 or side-2 token after markers are
stripped: the escaped forms of the tokens, concatenated. -/
def escTokens (ts : List String) : List Char :=
  (ts.map fun w => (escapeHtml w).data).flatten

theorem data_mk (l : List Char) : (String.mk l).data = l := rfl

theorem mk_data (s : String) : String.mk s.data = s := rfl

theorem data_append (a b : String) : (a ++ b).data = a.data ++ b.data := rfl

theorem data_eq_of (a b : String) (h : a.data = b.data) : a = b := by
  cases a; cases b; exact congrArg String.mk h

theorem escapeHtml_data (s : String) : (escapeHtml s).data = escData s.data := by
  unfold escapeHtml escData
  rw [String.join_eq]
  simp [data_mk, List.map_map, Function.comp_def, String.toList]

theorem escData_append (a b : List Char) : escData (a ++ b) = escData a ++ escData b := by
  simp [escData]

theorem escData_flatten (ls : List (List Char)) :
    escData ls.flatten = (ls.map escData).flatten := by
  induction ls with
  | nil => simp [escData]
  | cons x xs ih => simp [escData_append, ih]

theorem escapeChar_no_lt (c : Char) : ∀ x ∈ (escapeChar c).data, x ≠ '<' := by
  unfold escapeChar
  by_cases h1 : c == '&'
  · rw [if_pos h1]; decide
  · rw [if_neg h1]
    by_cases h0 : c == '\u00A0'
    · rw [if_pos h0]; decide
    · rw [if_neg h0]
      by_cases h2 : c == '<'
      · rw [if_pos h2]; decide
      · rw [if_neg h2]
        by_cases h3 : c == '>'
        · rw [if_pos h3]; decide
        · rw [if_neg h3]
          intro x hx
          have : x = c := by simpa [data_mk] using hx
          subst this
          exact fun hc => h2 (by simp [hc])

theorem escData_no_lt (cs : List Char) : ∀ x ∈ escData cs, x ≠ '<' := by
  intro x hx
  simp only [escData, List.mem_flatten, List.mem_map] at hx
  obtain ⟨l, ⟨c, _, rfl⟩, hxl⟩ := hx
  exact escapeChar_no_lt c x hxl

theorem stripMarkers_cons (c : Char) (rest : List Char) :
    stripMarkers (c :: rest) =
      if startsWithL removedOpenL (c :: rest) then
        stripMarkers ((c :: rest).drop removedOpenL.length)
      else if startsWithL addedOpenL (c :: rest) then
        stripMarkers ((c :: rest).drop addedOpenL.length)
      else if startsWithL closeSpanL (c :: rest) then
        stripMarkers ((c :: rest).drop closeSpanL.length)
      else c :: stripMarkers rest := by
  rw [stripMarkers]

theorem stripMarkers_removedOpen (t : List Char) :
    stripMarkers (removedOpenL ++ t) = stripMarkers t := by
  rw [show removedOpenL ++ t = '<' :: (removedOpenL.tail ++ t) from rfl, stripMarkers_cons]
  rw [if_pos (show startsWithL removedOpenL ('<' :: (removedOpenL.tail ++ t)) = true from rfl)]
  rw [show ('<' :: (removedOpenL.tail ++ t)).drop removedOpenL.length = t from rfl]

theorem stripMarkers_addedOpen (t : List Char) :
    stripMarkers (addedOpenL ++ t) = stripMarkers t := by
  rw [show addedOpenL ++ t = '<' :: (addedOpenL.tail ++ t) from rfl, stripMarkers_cons]
  rw [show startsWithL removedOpenL ('<' :: (addedOpenL.tail ++ t)) = false from rfl]
  rw [if_neg (by simp)]
  rw [if_pos (show startsWithL addedOpenL ('<' :: (addedOpenL.tail ++ t)) = true from rfl)]
  rw [show ('<' :: (addedOpenL.tail ++ t)).drop addedOpenL.length = t from rfl]

theorem stripMarkers_closeSpan (t : List Char) :
    stripMarkers (closeSpanL ++ t) = stripMarkers t := by
  rw [show closeSpanL ++ t = '<' :: (closeSpanL.tail ++ t) from rfl, stripMarkers_cons]
  rw [show startsWithL removedOpenL ('<' :: (closeSpanL.tail ++ t)) = false from rfl]
  rw [if_neg (by simp)]
  rw [show startsWithL addedOpenL ('<' :: (closeSpanL.tail ++ t)) = false from rfl]
  rw [if_neg (by simp)]
  rw [if_pos (show startsWithL closeSpanL ('<' :: (closeSpanL.tail ++ t)) = true from rfl)]
  rw [show ('<' :: (closeSpanL.tail ++ t)).drop closeSpanL.length = t from rfl]

theorem stripMarkers_keep (c : Char) (rest : List Char) (h : c ≠ '<') :
    stripMarkers (c :: rest) = c :: stripMarkers rest := by
  have hb : ('<' == c) = false := by simp [Ne.symm h]
  rw [stripMarkers_cons]
  rw [show startsWithL removedOpenL (c :: rest) =
      (('<' == c) && startsWithL removedOpenL.tail rest) from rfl, hb, Bool.false_and]
  rw [if_neg (by simp)]
  rw [show startsWithL addedOpenL (c :: rest) =
      (('<' == c) && startsWithL addedOpenL.tail rest) from rfl, hb, Bool.false_and]
  rw [if_neg (by simp)]
  rw [show startsWithL closeSpanL (c :: rest) =
      (('<' == c) && startsWithL closeSpanL.tail rest) from rfl, hb, Bool.false_and]
  rw [if_neg (by simp)]

theorem stripMarkers_append_no_lt (xs : List Char) (h : ∀ c ∈ xs, c ≠ '<')
    (rest : List Char) : stripMarkers (xs ++ rest) = xs ++ stripMarkers rest := by
  induction xs with
  | nil => simp
  | cons c xs ih =>
    rw [List.cons_append, stripMarkers_keep c _ (h c (by simp))]
    rw [ih fun c' hc' => h c' (by simp [hc'])]
    simp

theorem strip_hlStep_fst (w1 w2 : String) (rest : String × String) :
    stripMarkers ((hlStep w1 w2 rest).1.data) =
      (escapeHtml w1).data ++ stripMarkers rest.1.data := by
  unfold hlStep
  by_cases h : w1 = w2
  · rw [if_neg (by simp [h])]
    rw [data_append]
    exact stripMarkers_append_no_lt _ (by rw [escapeHtml_data]; exact escData_no_lt _) _
  · rw [if_pos h]
    dsimp only
    by_cases h0 : w1 = ""
    · subst h0
      rw [if_neg (by simp)]
      rfl
    · rw [if_pos h0, data_append, data_append, data_append]
      rw [show removedOpen.data = removedOpenL from rfl, List.append_assoc, List.append_assoc]
      rw [stripMarkers_removedOpen]
      rw [stripMarkers_append_no_lt _ (by rw [escapeHtml_data]; exact escData_no_lt _) _]
      rw [show closeSpan.data = closeSpanL from rfl, stripMarkers_closeSpan]

theorem strip_hlStep_snd (w1 w2 : String) (rest : String × String) :
    stripMarkers ((hlStep w1 w2 rest).2.data) =
      (escapeHtml w2).data ++ stripMarkers rest.2.data := by
  unfold hlStep
  by_cases h : w1 = w2
  · rw [if_neg (by simp [h])]
    rw [data_append]
    exact stripMarkers_append_no_lt _ (by rw [escapeHtml_data]; exact escData_no_lt _) _
  · rw [if_pos h]
    dsimp only
    by_cases h0 : w2 = ""
    · subst h0
      rw [if_neg (by simp)]
      rfl
    · rw [if_pos h0, data_append, data_append, data_append]
      rw [show addedOpen.data = addedOpenL from rfl, List.append_assoc, List.append_assoc]
      rw [stripMarkers_addedOpen]
      rw [stripMarkers_append_no_lt _ (by rw [escapeHtml_data]; exact escData_no_lt _) _]
      rw [show closeSpan.data = closeSpanL from rfl, stripMarkers_closeSpan]

theorem strip_hlLoop (l1 l2 : List String) :
    stripMarkers ((hlLoop l1 l2).1.data) = escTokens l1 ∧
      stripMarkers ((hlLoop l1 l2).2.data) = escTokens l2 := by
  match l1, l2 with
  | [], [] =>
    constructor <;> simp [hlLoop, escTokens, stripMarkers]
  | w1 :: r1, [] =>
    have ih := strip_hlLoop r1 []
    rw [hlLoop]
    refine ⟨?_, ?_⟩
    · rw [strip_hlStep_fst, ih.1]; simp [escTokens]
    · rw [strip_hlStep_snd, ih.2]
      simp [escTokens, show (escapeHtml "").data = [] from rfl]
  | [], w2 :: r2 =>
    have ih := strip_hlLoop [] r2
    rw [hlLoop]
    refine ⟨?_, ?_⟩
    · rw [strip_hlStep_fst, ih.1]
      simp [escTokens, show (escapeHtml "").data = [] from rfl]
    · rw [strip_hlStep_snd, ih.2]; simp [escTokens]
  | w1 :: r1, w2 :: r2 =>
    have ih := strip_hlLoop r1 r2
    rw [hlLoop]
    refine ⟨?_, ?_⟩
    · rw [strip_hlStep_fst, ih.1]; simp [escTokens]
    · rw [strip_hlStep_snd, ih.2]; simp [escTokens]
  termination_by l1.length + l2.length

mutual

theorem flat_goWord (l acc : List Char) :
    ((goWord l acc).map String.data).flatten = acc.reverse ++ l := by
  cases l with
  | nil => simp [goWord, data_mk]
  | cons c rest =>
    rw [goWord]
    by_cases h : isJsSpace c
    · rw [if_pos h]
      simp only [List.map_cons, List.flatten_cons, data_mk]
      rw [flat_goSpace rest [c]]
      simp
    · rw [if_neg h]
      rw [flat_goWord rest (c :: acc)]
      simp

theorem flat_goSpace (l acc : List Char) :
    ((goSpace l acc).map String.data).flatten = acc.reverse ++ l := by
  cases l with
  | nil => simp [goSpace, data_mk, show ("" : String).data = [] from rfl]
  | cons c rest =>
    rw [goSpace]
    by_cases h : isJsSpace c
    · rw [if_pos h]
      rw [flat_goSpace rest (c :: acc)]
      simp
    · rw [if_neg h]
      simp only [List.map_cons, List.flatten_cons, data_mk]
      rw [flat_goWord rest [c]]
      simp

end

theorem splitWS_join (s : String) : String.join (splitWS s) = s := by
  rw [String.join_eq]
  unfold splitWS
  rw [flat_goWord]
  simp only [List.reverse_nil, List.nil_append]
  exact mk_data s

theorem escTokens_join (ws : List String) :
    escTokens ws = (escapeHtml (String.join ws)).data := by
  rw [escapeHtml_data, show (String.join ws).data = (ws.map String.data).flatten from
    congrArg String.data (String.join_eq ws), escData_flatten]
  simp [escTokens, List.map_map, Function.comp_def, escapeHtml_data]

theorem escTokens_splitWS (s : String) : escTokens (splitWS s) = (escapeHtml s).data := by
  rw [escTokens_join, splitWS_join]

theorem jsAdd_num (a b : Int) : jsAdd (Json.num a) (Json.num b) = Json.num (a + b) := rfl

theorem isNull_false_of_guardA {data : Json} (h : shapeAGuard data = true) :
    isNull data = false := by
  cases data
  case null => exact absurd h (by decide)
  all_goals rfl

theorem isNull_false_of_guardB {data : Json} (h : shapeBGuard data = true) :
    isNull data = false := by
  cases data
  case null => exact absurd h (by decide)
  all_goals rfl

theorem extractA_content (data : Json) : (extractA data).content = aContent data := by
  unfold extractA
  cases h : getField data "usage" with
  | none => rfl
  | some u =>
    dsimp only
    by_cases ht : truthy u
    · rw [if_pos ht]
    · rw [if_neg ht]

theorem extractA_total (data : Json) : (extractA data).totalTokens = suppliedTotal data := by
  unfold extractA suppliedTotal
  cases h : getField data "usage" with
  | none => rfl
  | some u =>
    dsimp only
    by_cases ht : truthy u
    · rw [if_pos ht, if_pos ht]
    · rw [if_neg ht, if_neg ht]

theorem extractB_content (data : Json) : (extractB data).content = bText data := by
  unfold extractB
  cases h : getField data "usage" with
  | none => rfl
  | some u =>
    dsimp only
    by_cases ht : truthy u
    · rw [if_pos ht]
    · rw [if_neg ht]

theorem extractB_total (data : Json) :
    (extractB data).totalTokens =
      jsAdd (extractB data).promptTokens (extractB data).completionTokens := by
  unfold extractB
  cases h : getField data "usage" with
  | none => rfl
  | some u =>
    dsimp only
    by_cases ht : truthy u
    · rw [if_pos ht]
    · rw [if_neg ht]; rfl

theorem normalize_ok_cases {data : Json} {r : ModelResponse}
    (h : normalize data = Except.ok r) :
    (shapeAGuard data = true ∧ r = extractA data) ∨
    (shapeAGuard data = false ∧ shapeBGuard data = true ∧ r = extractB data) := by
  unfold normalize at h
  by_cases h0 : isNull data
  · rw [if_pos h0] at h
    exact absurd h (by simp)
  · rw [if_neg h0] at h
    by_cases hA : shapeAGuard data
    · rw [if_pos hA] at h
      injection h with h
      exact Or.inl ⟨hA, h.symm⟩
    · rw [if_neg hA] at h
      by_cases hB : shapeBGuard data
      · rw [if_pos hB] at h
        injection h with h
        exact Or.inr ⟨by simpa using hA, hB, h.symm⟩
      · rw [if_neg hB] at h
        exact absurd h (by simp)

theorem jsOr_nonneg (fieldv : Option Json)
    (h : ∀ v, fieldv = some v → ∃ n : Int, v = Json.num n ∧ 0 ≤ n) :
    ∃ n : Int, jsOr fieldv (Json.num 0) = Json.num n ∧ 0 ≤ n := by
  cases fieldv with
  | none => exact ⟨0, rfl, le_refl 0⟩
  | some v =>
    obtain ⟨n, rfl, hn⟩ := h v rfl
    unfold jsOr
    dsimp only
    by_cases h0 : truthy (Json.num n)
    · rw [if_pos h0]; exact ⟨n, rfl, hn⟩
    · rw [if_neg h0]; exact ⟨0, rfl, le_refl 0⟩

theorem escData_id (cs : List Char)
    (h : ∀ c ∈ cs, c ≠ '&' ∧ c ≠ '<' ∧ c ≠ '>' ∧ c ≠ '\u00A0') : escData cs = cs := by
  induction cs with
  | nil => rfl
  | cons c rest ih =>
    have hc := h c (by simp)
    have he : escapeChar c = String.mk [c] := by
      unfold escapeChar
      rw [if_neg (by simp [hc.1]), if_neg (by simp [hc.2.2.2]),
        if_neg (by simp [hc.2.1]), if_neg (by simp [hc.2.2.1])]
    show (escapeChar c).data ++ escData rest = c :: rest
    rw [he, ih fun c' hc' => h c' (by simp [hc'])]
    rfl

/-- Claim C3: for every pair of strings, stripping the removed/added markers
from the first output of `highlightDifferences` and concatenating what
remains yields exactly `escapeHtml text1`, and likewise the second output
yields `escapeHtml text2`: every original character of both inputs is
preserved and markup-escaped. -/
theorem highlight_strip_restores_escaped (t1 t2 : String) :
    stripTags (highlightDifferences t1 t2).1 = escapeHtml t1 ∧
    stripTags (highlightDifferences t1 t2).2 = escapeHtml t2 := by
  unfold stripTags highlightDifferences
  constructor
  · show String.mk (stripMarkers (hlLoop (splitWS t1) (splitWS t2)).1.data) = escapeHtml t1
    rw [(strip_hlLoop (splitWS t1) (splitWS t2)).1, escTokens_splitWS]
  · show String.mk (stripMarkers (hlLoop (splitWS t1) (splitWS t2)).2.data) = escapeHtml t2
    rw [(strip_hlLoop (splitWS t1) (splitWS t2)).2, escTokens_splitWS]

/-- Claim C4 (refuted as stated): `escapeHtml` is not idempotent in general,
because escaping `&` produces `&amp;`, which itself contains `&` and is
escaped again on a second pass. -/
theorem escapeHtml_not_idempotent :
    escapeHtml (escapeHtml "&") ≠ escapeHtml "&" := by decide

/-- Claim C4 (amended): on strings containing none of the four characters
the serializer escapes (`&`, `<`, `>`, U+00A0 no-break space), `escapeHtml`
is the identity, and hence applying it twice equals applying it once;
idempotence fails on any other string, since every escape introduces
`&`. -/
theorem escapeHtml_idempotent_on_markup_free (s : String)
    (h : ∀ c ∈ s.data, c ≠ '&' ∧ c ≠ '<' ∧ c ≠ '>' ∧ c ≠ '\u00A0') :
    escapeHtml s = s ∧ escapeHtml (escapeHtml s) = escapeHtml s := by
  have base : escapeHtml s = s := by
    apply data_eq_of
    rw [escapeHtml_data]
    exact escData_id s.data h
  exact ⟨base, by rw [base]; exact base⟩

/-- Witness for the amended C4 at the markup-free string `"abc"`. -/
theorem escapeHtml_idempotent_on_markup_free_witness :
    escapeHtml "abc" = "abc" ∧ escapeHtml (escapeHtml "abc") = escapeHtml "abc" :=
  escapeHtml_idempotent_on_markup_free "abc" (by decide)

/-- Claim C5: the tokenization `split(/(\s+)/)` discards nothing —
concatenating all tokens in order reconstructs the original string
exactly. -/
theorem splitWS_concat_reconstructs (s : String) : String.join (splitWS s) = s :=
  splitWS_join s

/-- Claim C7: whenever at least one of the seven required form fields is
empty, `compareResponses` stops at the validation failure and issues zero
network requests. -/
theorem compare_empty_field_validationError (i : CompareInputs)
    (h : i.endpoint1 = "" ∨ i.endpoint2 = "" ∨ i.apikey1 = "" ∨ i.apikey2 = "" ∨
      i.model1 = "" ∨ i.model2 = "" ∨ i.prompt = "") :
    compareResponses i = CompareOutcome.validationError ∧
      requestsIssued (compareResponses i) = 0 := by
  have hc : (i.endpoint1 == "" || i.endpoint2 == "" || i.apikey1 == "" || i.apikey2 == "" ||
      i.model1 == "" || i.model2 == "" || i.prompt == "") = true := by
    rcases h with h | h | h | h | h | h | h <;> simp [h]
  unfold compareResponses
  rw [if_pos hc]
  exact ⟨rfl, rfl⟩

/-- Witness for C7: an input with an empty prompt is rejected with no
request issued. -/
theorem compare_empty_field_validationError_witness :
    compareResponses ⟨"e1", "e2", "k1", "k2", "m1", "m2", ""⟩ =
        CompareOutcome.validationError ∧
      requestsIssued (compareResponses ⟨"e1", "e2", "k1", "k2", "m1", "m2", ""⟩) = 0 :=
  compare_empty_field_validationError ⟨"e1", "e2", "k1", "k2", "m1", "m2", ""⟩
    (by simp)

/-- Claim C10 (refuted as stated): `escapeHtml` does not leave every
character other than `&`, `<`, `>` unchanged — the text-node serializer
behind the `textContent`/`innerHTML` round trip also replaces the U+00A0
no-break space with `&nbsp;`. -/
theorem escapeHtml_nbsp_replaced :
    escapeHtml (String.mk ['\u00A0']) = "&nbsp;" ∧
      String.mk ['\u00A0'] ≠ "&nbsp;" :=
  ⟨rfl, by decide⟩

/-- Claim C10 (amended): `escapeHtml` is the concatenation-homomorphic map
sending `&` to `&amp;`, `<` to `&lt;`, `>` to `&gt;`, the U+00A0 no-break
space to `&nbsp;`, and every other character — including the double quote
(code 34) and single quote (code 39) — to itself. -/
theorem escapeHtml_exact_four_chars :
    (∀ a b : String, escapeHtml (a ++ b) = escapeHtml a ++ escapeHtml b) ∧
    escapeHtml "&" = "&amp;" ∧ escapeHtml "<" = "&lt;" ∧ escapeHtml ">" = "&gt;" ∧
    escapeHtml (String.mk ['\u00A0']) = "&nbsp;" ∧
    (∀ c : Char, c ≠ '&' → c ≠ '<' → c ≠ '>' → c ≠ '\u00A0' →
      escapeHtml (String.mk [c]) = String.mk [c]) ∧
    escapeHtml (String.mk [Char.ofNat 34]) = String.mk [Char.ofNat 34] ∧
    escapeHtml (String.mk [Char.ofNat 39]) = String.mk [Char.ofNat 39] := by
  refine ⟨?_, rfl, rfl, rfl, rfl, ?_, by decide, by decide⟩
  · intro a b
    apply data_eq_of
    rw [data_append, escapeHtml_data, escapeHtml_data, escapeHtml_data, data_append,
      escData_append]
  · intro c h1 h2 h3 h4
    apply data_eq_of
    rw [escapeHtml_data, data_mk]
    exact escData_id [c] (by simp [h1, h2, h3, h4])

/-- Witness for the amended C10 at the ordinary character `x`. -/
theorem escapeHtml_exact_four_chars_witness :
    escapeHtml (String.mk ['x']) = String.mk ['x'] :=
  escapeHtml_exact_four_chars.2.2.2.2.2.1 'x' (by decide) (by decide) (by decide)
    (by decide)

/-- A Shape A payload whose usage object supplies the two component counters
but omits `total_tokens`. -/
def payloadANoTotal : Json :=
  .obj [("choices", .arr [.obj [("message", .obj [("content", .str "hi")])]]),
        ("usage", .obj [("prompt_tokens", .num 3), ("completion_tokens", .num 2)])]

/-- Claim C1: every payload accepted by `normalize` lands in one of the two
branches, and there `totalTokens` is respectively the total supplied by the
usage object (missing/falsy defaulted to 0, Shape A) or the JavaScript sum
of the two components (Shape B); on integer components that sum is integer
addition. -/
theorem normalize_totalTokens_invariant (data : Json) (r : ModelResponse)
    (h : normalize data = Except.ok r) :
    (shapeAGuard data = true ∧ r.totalTokens = suppliedTotal data) ∨
    (shapeAGuard data = false ∧ shapeBGuard data = true ∧
      r.totalTokens = jsAdd r.promptTokens r.completionTokens ∧
      ∀ p c : Int, r.promptTokens = Json.num p → r.completionTokens = Json.num c →
        r.totalTokens = Json.num (p + c)) := by
  rcases normalize_ok_cases h with ⟨hA, rfl⟩ | ⟨hA, hB, rfl⟩
  · exact Or.inl ⟨hA, extractA_total data⟩
  · refine Or.inr ⟨hA, hB, extractB_total data, ?_⟩
    intro p c hp hc
    rw [extractB_total data, hp, hc, jsAdd_num]

/-- Witness for C1 at a Shape A payload whose usage omits `total_tokens`:
the record is accepted and its `totalTokens` is the defaulted supplied
total. -/
theorem normalize_totalTokens_invariant_witness :
    (shapeAGuard payloadANoTotal = true ∧
      (extractA payloadANoTotal).totalTokens = suppliedTotal payloadANoTotal) ∨
    (shapeAGuard payloadANoTotal = false ∧ shapeBGuard payloadANoTotal = true ∧
      (extractA payloadANoTotal).totalTokens =
        jsAdd (extractA payloadANoTotal).promptTokens
          (extractA payloadANoTotal).completionTokens ∧
      ∀ p c : Int, (extractA payloadANoTotal).promptTokens = Json.num p →
        (extractA payloadANoTotal).completionTokens = Json.num c →
        (extractA payloadANoTotal).totalTokens = Json.num (p + c)) :=
  normalize_totalTokens_invariant payloadANoTotal (extractA payloadANoTotal) rfl

/-- A Shape B payload whose first block carries the empty text string. -/
def payloadBEmptyText : Json :=
  .obj [("content", .arr [.obj [("text", .str "")]])]

/-- Claim C2 (refuted as stated): a Shape B payload whose `text` is the empty
string is not accepted — the guard `data.content[0].text` is falsy on `""`,
so `normalize` fails with the format error instead of succeeding. -/
theorem shapeB_empty_text_rejected :
    normalize payloadBEmptyText = Except.error NormError.formatError := rfl

/-- Claim C2 (amended): for every payload matching Shape B (and not Shape A,
which is tried first) whose first element carries a `text` string, `normalize`
succeeds and the resulting content is exactly that string; the guard forces
the string to be non-empty. -/
theorem shapeB_text_becomes_content (data : Json) (t : String)
    (hA : shapeAGuard data = false) (hB : shapeBGuard data = true)
    (ht : bText data = some (Json.str t)) :
    normalize data = Except.ok (extractB data) ∧
      (extractB data).content = some (Json.str t) ∧ t ≠ "" := by
  have hn : isNull data = false := isNull_false_of_guardB hB
  refine ⟨?_, ?_, ?_⟩
  · unfold normalize
    rw [if_neg (by simp [hn]), if_neg (by simp [hA]), if_pos hB]
  · rw [extractB_content, ht]
  · have h3 : truthyO (bText data) = true := by
      have h' := hB
      simp only [shapeBGuard, Bool.and_eq_true] at h'
      exact h'.2
    rw [ht] at h3
    simpa [truthyO, truthy] using h3

/-- A Shape B payload whose first block carries the text `"hi"`. -/
def payloadBHi : Json :=
  .obj [("content", .arr [.obj [("text", .str "hi")]]),
        ("usage", .obj [("input_tokens", .num 3), ("output_tokens", .num 2)])]

/-- Witness for the amended C2 at a concrete Shape B payload. -/
theorem shapeB_text_becomes_content_witness :
    normalize payloadBHi = Except.ok (extractB payloadBHi) ∧
      (extractB payloadBHi).content = some (Json.str "hi") ∧ "hi" ≠ "" :=
  shapeB_text_becomes_content payloadBHi "hi" rfl rfl rfl

/-- Claim C6 (refuted as stated): the JSON body `null` matches neither shape,
yet `normalize` does not fail with the format error — the first property
read `data.choices` throws a TypeError instead. -/
theorem normalize_null_not_formatError :
    normalize Json.null = Except.error NormError.typeError ∧
      NormError.typeError ≠ NormError.formatError :=
  ⟨rfl, by decide⟩

/-- Claim C6 (amended): every decoded JSON payload other than `null` that
matches neither shape fails with the format error — no silent fallback, no
partial extraction. -/
theorem normalize_unmatched_formatError (data : Json) (hn : data ≠ Json.null)
    (hA : shapeAGuard data = false) (hB : shapeBGuard data = false) :
    normalize data = Except.error NormError.formatError := by
  have h0 : isNull data = false := by
    cases data
    case null => exact absurd rfl hn
    all_goals rfl
  unfold normalize
  rw [if_neg (by simp [h0]), if_neg (by simp [hA]), if_neg (by simp [hB])]

/-- Witness for the amended C6 at the empty object. -/
theorem normalize_unmatched_formatError_witness :
    normalize (Json.obj []) = Except.error NormError.formatError :=
  normalize_unmatched_formatError (Json.obj []) (fun h => Json.noConfusion h) rfl rfl

/-- A Shape A payload whose usage object carries a negative
`prompt_tokens`. -/
def payloadANegative : Json :=
  .obj [("choices", .arr [.obj [("message", .obj [("content", .str "hi")])]]),
        ("usage", .obj [("prompt_tokens", .num (-3))])]

/-- Claim C8 (refuted as stated): `normalize` accepts a payload whose usage
reports `prompt_tokens: -3` and passes the negative value through, so the
resulting `promptTokens` is not a non-negative integer. -/
theorem normalize_negative_token_passthrough :
    normalize payloadANegative =
        Except.ok ⟨some (Json.str "hi"), Json.num (-3), Json.num 0, Json.num 0⟩ ∧
      (-3 : Int) < 0 :=
  ⟨rfl, by decide⟩

/-- Claim C8 (amended): for every accepted payload whose usage fields, when
present, are non-negative integers, the three resulting token counters are
non-negative integers; and they are all 0 whenever the payload omits the
usage object. -/
theorem normalize_tokens_nonneg (data : Json) (r : ModelResponse)
    (hOk : usageOk data) (h : normalize data = Except.ok r) :
    ((∃ n : Int, r.promptTokens = Json.num n ∧ 0 ≤ n) ∧
     (∃ n : Int, r.completionTokens = Json.num n ∧ 0 ≤ n) ∧
     (∃ n : Int, r.totalTokens = Json.num n ∧ 0 ≤ n)) ∧
    (getField data "usage" = none →
      r.promptTokens = Json.num 0 ∧ r.completionTokens = Json.num 0 ∧
        r.totalTokens = Json.num 0) := by
  rcases normalize_ok_cases h with ⟨_, rfl⟩ | ⟨_, _, rfl⟩
  · unfold extractA
    cases hu : getField data "usage" with
    | none =>
      exact ⟨⟨⟨0, rfl, le_refl 0⟩, ⟨0, rfl, le_refl 0⟩, ⟨0, rfl, le_refl 0⟩⟩,
        fun _ => ⟨rfl, rfl, rfl⟩⟩
    | some u =>
      have hfields := hOk u hu
      refine ⟨?_, fun h' => absurd h' (by simp)⟩
      dsimp only
      by_cases ht : truthy u
      · rw [if_pos ht]
        exact ⟨jsOr_nonneg _ fun v hv => hfields "prompt_tokens" v hv,
          jsOr_nonneg _ fun v hv => hfields "completion_tokens" v hv,
          jsOr_nonneg _ fun v hv => hfields "total_tokens" v hv⟩
      · rw [if_neg ht]
        exact ⟨⟨0, rfl, le_refl 0⟩, ⟨0, rfl, le_refl 0⟩, ⟨0, rfl, le_refl 0⟩⟩
  · unfold extractB
    cases hu : getField data "usage" with
    | none =>
      exact ⟨⟨⟨0, rfl, le_refl 0⟩, ⟨0, rfl, le_refl 0⟩, ⟨0, rfl, le_refl 0⟩⟩,
        fun _ => ⟨rfl, rfl, rfl⟩⟩
    | some u =>
      have hfields := hOk u hu
      refine ⟨?_, fun h' => absurd h' (by simp)⟩
      dsimp only
      by_cases ht : truthy u
      · rw [if_pos ht]
        obtain ⟨p, hp, hp0⟩ := jsOr_nonneg (getField u "input_tokens")
          fun v hv => hfields "input_tokens" v hv
        obtain ⟨c, hc, hc0⟩ := jsOr_nonneg (getField u "output_tokens")
          fun v hv => hfields "output_tokens" v hv
        refine ⟨⟨p, hp, hp0⟩, ⟨c, hc, hc0⟩, ⟨p + c, ?_, by omega⟩⟩
        show jsAdd (jsOr (getField u "input_tokens") (Json.num 0))
          (jsOr (getField u "output_tokens") (Json.num 0)) = Json.num (p + c)
        rw [hp, hc, jsAdd_num]
      · rw [if_neg ht]
        exact ⟨⟨0, rfl, le_refl 0⟩, ⟨0, rfl, le_refl 0⟩, ⟨0, rfl, le_refl 0⟩⟩

/-- A Shape A payload with a single non-negative usage counter. -/
def payloadASmall : Json :=
  .obj [("choices", .arr [.obj [("message", .obj [("content", .str "hi")])]]),
        ("usage", .obj [("prompt_tokens", .num 3)])]

/-- Witness for the amended C8 at a payload with a well-formed usage
object. -/
theorem normalize_tokens_nonneg_witness :
    ((∃ n : Int, (extractA payloadASmall).promptTokens = Json.num n ∧ 0 ≤ n) ∧
     (∃ n : Int, (extractA payloadASmall).completionTokens = Json.num n ∧ 0 ≤ n) ∧
     (∃ n : Int, (extractA payloadASmall).totalTokens = Json.num n ∧ 0 ≤ n)) ∧
    (getField payloadASmall "usage" = none →
      (extractA payloadASmall).promptTokens = Json.num 0 ∧
        (extractA payloadASmall).completionTokens = Json.num 0 ∧
        (extractA payloadASmall).totalTokens = Json.num 0) :=
  normalize_tokens_nonneg payloadASmall (extractA payloadASmall)
    (by
      intro u hu k v hv
      have hu2 : some (Json.obj [("prompt_tokens", Json.num 3)]) = some u := hu
      injection hu2 with hu3
      subst hu3
      by_cases hk : k = "prompt_tokens"
      · subst hk
        have hv2 : some (Json.num 3) = some v := hv
        injection hv2 with hv3
        exact ⟨3, hv3.symm, by omega⟩
      · have hb : (k == "prompt_tokens") = false := by simp [hk]
        have hnone : List.lookup k [("prompt_tokens", Json.num 3)] = none := by
          simp [List.lookup, hb]
        rw [show getField (Json.obj [("prompt_tokens", Json.num 3)]) k =
          List.lookup k [("prompt_tokens", Json.num 3)] from rfl, hnone] at hv
        exact absurd hv (by simp))
    rfl

/-- A payload that structurally matches both shapes at once. -/
def payloadDual : Json :=
  .obj [("choices", .arr [.obj [("message", .obj [("content", .str "hi")])]]),
        ("content", .arr [.obj [("text", .str "there")]]),
        ("usage", .obj [("prompt_tokens", .num 1), ("input_tokens", .num 7)])]

/-- Claim C9: on a payload matching both shapes, `normalize` takes the
Shape A branch: the result is exactly the Shape A extraction, whose content
is `data.choices[0].message.content` (the Shape B `content`/`text` and
`input_tokens`/`output_tokens` fields are never consulted by that branch). -/
theorem dual_shape_prefers_shapeA (data : Json)
    (hA : shapeAGuard data = true) (_hB : shapeBGuard data = true) :
    normalize data = Except.ok (extractA data) ∧
      (extractA data).content = aContent data := by
  have h0 : isNull data = false := isNull_false_of_guardA hA
  refine ⟨?_, extractA_content data⟩
  unfold normalize
  rw [if_neg (by simp [h0]), if_pos hA]

/-- Witness for C9 at a concrete dual-shape payload. -/
theorem dual_shape_prefers_shapeA_witness :
    normalize payloadDual = Except.ok (extractA payloadDual) ∧
      (extractA payloadDual).content = aContent payloadDual :=
  dual_shape_prefers_shapeA payloadDual rfl rfl

end LlmDiff
